import Mathlib

/-!
Shallow embedding of the SSE-MCP-Template server core
(`src/sse_mcp_server/infrastructure/tool_factory.py` and
`src/sse_mcp_server/infrastructure/mcp_server.py`) together with proofs of
the spec claims about it.

Python numbers are modelled exactly: `int` as `Int`, `float` as an exact
rational (IEEE rounding of non-representable values is not modelled; every
value the claims evaluate concretely is exactly representable).
Python exceptions are modelled with `Except PyExc`.
-/

/-- Python runtime values that flow through the tool arguments of this
program: integers, floats, strings and `None` (the value `dict.get` returns
for a missing key). -/
inductive Value where
  | int (i : Int)
  | float (q : ℚ)
  | str (s : String)
  | none
deriving DecidableEq, Repr

/-- Python exception classes raised or caught in the embedded modules:
`ValueError`, `KeyError`, `RuntimeError` (all three caught by
`handle_call_tool`) and `TypeError` (not caught there). -/
inductive PyExc where
  | valueError (msg : String)
  | keyError (msg : String)
  | runtimeError (msg : String)
  | typeError (msg : String)
deriving DecidableEq, Repr

/-- `str(e)` on an exception: its message. -/
def PyExc.message : PyExc → String
  | .valueError m => m
  | .keyError m => m
  | .runtimeError m => m
  | .typeError m => m

/-- The `except (ValueError, KeyError, RuntimeError)` clause of
`handle_call_tool` catches exactly these classes. -/
def PyExc.isCaught : PyExc → Bool
  | .valueError _ => true
  | .keyError _ => true
  | .runtimeError _ => true
  | .typeError _ => false

/-- `mcp.types` content blocks: the tagged union
`TextContent | ImageContent | EmbeddedResource`. -/
inductive ContentBlock where
  | text (s : String)
  | image (data mimeType : String)
  | embeddedResource (uri : String)
deriving DecidableEq, Repr

/-- An argument mapping `dict[str, Any]`; keys are unique in every
reachable state (Python dicts cannot hold duplicate keys). -/
def PyDict : Type := List (String × Value)

/-- `arguments.get(k)`: the value under `k`, or Python `None` when the key
is absent. -/
def PyDict.get (d : PyDict) (k : String) : Value :=
  match List.find? (fun p => p.1 == k) d with
  | some p => p.2
  | Option.none => Value.none

/-- `isinstance(v, (int, float))`. -/
def Value.isNumber : Value → Bool
  | .int _ => true
  | .float _ => true
  | _ => false

/-- The exact rational magnitude of a numeric value (0 for non-numbers;
only applied to numbers). -/
def Value.toRat : Value → ℚ
  | .int i => (i : ℚ)
  | .float q => q
  | _ => 0

/-- Exact rational addition, spelled via `Rat.divInt` so that witnesses
can be evaluated by kernel reduction; `ratAdd_eq` below proves it equal to
`p + q`. -/
def ratAdd (p q : ℚ) : ℚ :=
  Rat.divInt (p.num * q.den + q.num * p.den) (p.den * q.den)

/-- Exact rational subtraction (see `ratSub_eq`). -/
def ratSub (p q : ℚ) : ℚ :=
  Rat.divInt (p.num * q.den - q.num * p.den) (p.den * q.den)

/-- Exact rational multiplication (see `ratMul_eq`). -/
def ratMul (p q : ℚ) : ℚ :=
  Rat.divInt (p.num * q.num) (p.den * q.den)

/-- Exact rational division (see `ratDiv_eq`). -/
def ratDiv (p q : ℚ) : ℚ :=
  Rat.divInt (p.num * q.den) (p.den * q.num)

/-- Python `x + y` on numbers: `int` when both are `int`, else `float`. -/
def pyAdd (a b : Value) : Value :=
  match a, b with
  | .int i, .int j => .int (i + j)
  | _, _ => .float (ratAdd a.toRat b.toRat)

/-- Python `x - y` on numbers. -/
def pySub (a b : Value) : Value :=
  match a, b with
  | .int i, .int j => .int (i - j)
  | _, _ => .float (ratSub a.toRat b.toRat)

/-- Python `x * y` on numbers. -/
def pyMul (a b : Value) : Value :=
  match a, b with
  | .int i, .int j => .int (i * j)
  | _, _ => .float (ratMul a.toRat b.toRat)

/-- Python true division `x / y`: always a `float`. -/
def pyDiv (a b : Value) : Value :=
  .float (ratDiv a.toRat b.toRat)

/-- Python `y != 0` negated: the divisor is (int or float) zero. -/
def Value.isZero : Value → Bool
  | .int i => i == 0
  | .float q => q == 0
  | _ => false

/-- Left-pad a digit string with zeros to length `k`. -/
def padZeros (k : Nat) (s : String) : String :=
  String.mk (List.replicate (k - s.length) '0') ++ s

/-- `str` on a Python float, modelled on the exact rational: integral
floats print as `"n.0"`, values with a terminating decimal expansion print
that expansion; the shortest-roundtrip digits of non-terminating binary
floats are outside this model (no claim evaluates one). -/
def floatStr (q : ℚ) : String :=
  if q.den = 1 then toString q.num ++ ".0"
  else
    let sign := if q.num < 0 then "-" else ""
    let n := q.num.natAbs
    match List.find? (fun k => n * 10 ^ k % q.den == 0) (List.range 64) with
    | some k =>
        let scaled := n * 10 ^ k / q.den
        sign ++ toString (scaled / 10 ^ k) ++ "." ++
          padZeros k (toString (scaled % 10 ^ k))
    | Option.none => sign ++ toString n ++ "/" ++ toString q.den

/-- Python `str(result)` as used by `CalculatorTool.execute`. -/
def pyStr : Value → String
  | .int i => toString i
  | .float q => floatStr q
  | .str s => s
  | .none => "None"

/-- The `operations` table of `CalculatorTool.execute`: the four lambdas,
looked up under `self.operation` (`operations[self.operation]` raises
`KeyError` for any other key; the constructor guarantees a valid key).
`divide` yields `None` on a zero divisor (`x / y if y != 0 else None`). -/
def calcOp (operation : String) (a b : Value) : Except PyExc (Option Value) :=
  match operation with
  | "sum" => .ok (some (pyAdd a b))
  | "subtract" => .ok (some (pySub a b))
  | "multiply" => .ok (some (pyMul a b))
  | "divide" => .ok (if b.isZero then Option.none else some (pyDiv a b))
  | _ => .error (.keyError operation)

namespace CalculatorTool

/-- `CalculatorTool.execute`: reads `a` and `b` from the arguments, raises
`ValueError("Arguments must be numbers")` unless both are `int`/`float`,
applies the operation, turns a `None` result into the
`"Error: Division by zero"` text block, otherwise returns `str(result)`
as a single text block. -/
def execute (operation : String) (arguments : PyDict) :
    Except PyExc (List ContentBlock) :=
  let a := arguments.get "a"
  let b := arguments.get "b"
  if !a.isNumber || !b.isNumber then
    .error (.valueError "Arguments must be numbers")
  else
    match calcOp operation a b with
    | .error e => .error e
    | .ok Option.none => .ok [.text "Error: Division by zero"]
    | .ok (some result) => .ok [.text (pyStr result)]

end CalculatorTool

/-- The result a `SimpleTool` handler may return: a string or a
`dict[str, str]` (the only dict shape a handler of this program returns). -/
inductive HandlerResult where
  | str (s : String)
  | dict (entries : List (String × String))
deriving DecidableEq, Repr

/-- The concrete `SimpleTool` handlers registered by this program:
only `get_server_info` in `mcp_server.register_tools`. -/
inductive HandlerKind where
  | serverInfo
deriving DecidableEq, Repr

/-- Run a handler on the argument mapping. `get_server_info` ignores its
arguments and returns the fixed info dict. -/
def HandlerKind.run : HandlerKind → PyDict → HandlerResult
  | .serverInfo, _ =>
      .dict [("server", "SSE MCP Server"), ("version", "0.1.0"),
             ("status", "running")]

/-- `json.dumps(d, indent=2)` on a flat string-to-string dict (none of the
program's values needs character escaping). -/
def jsonDumpsIndent2 (d : List (String × String)) : String :=
  if d.isEmpty then "\x7b\x7d"
  else
    "\x7b\n" ++
      String.intercalate ",\n"
        (d.map fun p => "  \"" ++ p.1 ++ "\": \"" ++ p.2 ++ "\"") ++
      "\n\x7d"

/-- `SimpleTool.execute`: run the handler; a dict result is serialized
with `json.dumps(result, indent=2)`, anything else via `str(result)`;
either way a single text block. -/
def SimpleTool.execute (handler : HandlerKind) (arguments : PyDict) :
    Except PyExc (List ContentBlock) :=
  match handler.run arguments with
  | .dict d => .ok [.text (jsonDumpsIndent2 d)]
  | .str s => .ok [.text s]

/-- The `MCPTool` hierarchy as instantiated by this program: a
`CalculatorTool(operation)` or a `SimpleTool(name, description, handler)`. -/
inductive MCPTool where
  | calculator (operation : String)
  | simple (name description : String) (handler : HandlerKind)
deriving DecidableEq, Repr

/-- The tool's `name` attribute: `f"calculate_{operation}"` for a
calculator, the given name for a simple tool. -/
def MCPTool.name : MCPTool → String
  | .calculator operation => "calculate_" ++ operation
  | .simple n _ _ => n

/-- `tool.execute(arguments)` dispatched on the concrete class. -/
def MCPTool.execute : MCPTool → PyDict → Except PyExc (List ContentBlock)
  | .calculator operation, args => CalculatorTool.execute operation args
  | .simple _ _ handler, args => SimpleTool.execute handler args

/-- Python dict assignment `d[k] = v`: replace in place if the key is
present (keeping its position), else append at the end. -/
def dictInsert : List (String × α) → String → α → List (String × α)
  | [], k, v => [(k, v)]
  | p :: t, k, v => if p.1 == k then (k, v) :: t else p :: dictInsert t k v

/-- `MCPToolRegistry`: the `_tools` dict mapping a tool name to the tool. -/
structure MCPToolRegistry where
  tools : List (String × MCPTool)
deriving DecidableEq, Repr

namespace MCPToolRegistry

/-- `register(tool)`: `self._tools[tool.name] = tool`. -/
def register (r : MCPToolRegistry) (tool : MCPTool) : MCPToolRegistry :=
  ⟨dictInsert r.tools tool.name tool⟩

/-- `get(name)`: `self._tools.get(name)`, `None` when absent. -/
def get (r : MCPToolRegistry) (name : String) : Option MCPTool :=
  (List.find? (fun p => p.1 == name) r.tools).map Prod.snd

/-- `execute_tool(name, arguments)`: raise
`ValueError(f"Unknown tool: {name}")` on an unknown name; normalize a
`None` argument mapping to `{}`; run the tool. -/
def execute_tool (r : MCPToolRegistry) (name : String)
    (arguments : Option PyDict) : Except PyExc (List ContentBlock) :=
  match r.get name with
  | Option.none => .error (.valueError ("Unknown tool: " ++ name))
  | some tool => tool.execute (arguments.getD [])

end MCPToolRegistry

/-- `register_tools` in `mcp_server.py`: the four calculator tools in
order, then the `get_server_info` simple tool, registered into the
module-level `tool_registry`. -/
def register_tools : MCPToolRegistry :=
  let r := List.foldl (fun (r : MCPToolRegistry) op => r.register (.calculator op))
    ⟨[]⟩ ["sum", "subtract", "multiply", "divide"]
  r.register (.simple "get_server_info"
    "Get information about the MCP server" .serverInfo)

/-- The module-level registry after `register_tools()` ran on import. -/
def tool_registry : MCPToolRegistry := register_tools

/-- `handle_call_tool`: delegate to `tool_registry.execute_tool`; a caught
exception (`ValueError`, `KeyError`, `RuntimeError`) becomes the single
text block `f"Error: {str(e)}"`; any other exception propagates. -/
def handle_call_tool (name : String) (arguments : Option PyDict) :
    Except PyExc (List ContentBlock) :=
  match tool_registry.execute_tool name arguments with
  | .ok blocks => .ok blocks
  | .error e =>
      if e.isCaught then .ok [.text ("Error: " ++ e.message)]
      else .error e

/-- The settings fields `handle_read_resource` interpolates
(`settings.environment.value` is the enum's string value). -/
structure Settings where
  app_name : String
  version : String
  environment : String
  debug : Bool
  host : String
  port : Nat
deriving DecidableEq, Repr

/-- Python `str` on a bool, as an f-string renders `settings.debug`. -/
def pyBoolStr (b : Bool) : String := if b then "True" else "False"

/-- The f-string body returned for `config://app`. -/
def configText (s : Settings) : String :=
  "Application Configuration:\n- Name: " ++ s.app_name ++
  "\n- Version: " ++ s.version ++
  "\n- Environment: " ++ s.environment ++
  "\n- Debug: " ++ pyBoolStr s.debug ++
  "\n- Host: " ++ s.host ++
  "\n- Port: " ++ toString s.port ++ "\n"

/-- `handle_read_resource(uri)`: the configuration text when
`str(uri) == "config://app"`, else
`ValueError(f"Resource not found: {uri}")`. -/
def handle_read_resource (s : Settings) (uri : String) :
    Except PyExc String :=
  if uri = "config://app" then .ok (configText s)
  else .error (.valueError ("Resource not found: " ++ uri))

/-- The `Settings()` values under the default (development) environment:
defaults from `settings.py` with `_apply_environment_settings` forcing
`debug = True` in development. -/
def defaultSettings : Settings :=
  { app_name := "Agent Hub", version := "1.0.0",
    environment := "development", debug := true,
    host := "0.0.0.0", port := 5001 }

/-- `types.PromptArgument`: name, description, required flag. -/
structure PromptArgument where
  name : String
  description : String
  required : Bool
deriving DecidableEq, Repr

/-- `types.Prompt`: name, description, argument declarations. -/
structure Prompt where
  name : String
  description : String
  arguments : List PromptArgument
deriving DecidableEq, Repr

/-- `handle_list_prompts`: the single `greeting` prompt whose `name`
argument is declared with `required=True`. -/
def handle_list_prompts : List Prompt :=
  [{ name := "greeting", description := "Generate a greeting",
     arguments := [{ name := "name",
                     description := "Name of the person to greet",
                     required := true }] }]

/-- `types.PromptMessage`: role and content block. -/
structure PromptMessage where
  role : String
  content : ContentBlock
deriving DecidableEq, Repr

/-- `types.GetPromptResult`: description and messages. -/
structure GetPromptResult where
  description : String
  messages : List PromptMessage
deriving DecidableEq, Repr

/-- The result `handle_get_prompt` builds for the greeting prompt. -/
def greetingResult (user_name : String) : GetPromptResult :=
  { description := "A friendly greeting",
    messages := [{ role := "user",
                   content := .text ("Hello, " ++ user_name ++
                     "! How can I help you today?") }] }

/-- `handle_get_prompt(name, arguments)`: for `"greeting"`, take
`(arguments or {}).get("name", "User")` and render the greeting; any other
name raises `ValueError(f"Unknown prompt: {name}")`. -/
def handle_get_prompt (name : String)
    (arguments : Option (List (String × String))) :
    Except PyExc GetPromptResult :=
  if name = "greeting" then
    let user_name :=
      match List.find? (fun p => p.1 == "name") (arguments.getD []) with
      | some p => p.2
      | Option.none => "User"
    .ok (greetingResult user_name)
  else .error (.valueError ("Unknown prompt: " ++ name))

deriving instance DecidableEq for Except

/-- `ratAdd` is rational addition. -/
theorem ratAdd_eq (p q : ℚ) : ratAdd p q = p + q := by
  have hp : ((p.den : ℚ)) ≠ 0 := by exact_mod_cast p.den_nz
  have hq : ((q.den : ℚ)) ≠ 0 := by exact_mod_cast q.den_nz
  rw [ratAdd, Rat.divInt_eq_div]
  conv_rhs => rw [← Rat.num_div_den p, ← Rat.num_div_den q]
  rw [div_add_div _ _ hp hq]
  push_cast
  ring_nf

/-- `ratSub` is rational subtraction. -/
theorem ratSub_eq (p q : ℚ) : ratSub p q = p - q := by
  have hp : ((p.den : ℚ)) ≠ 0 := by exact_mod_cast p.den_nz
  have hq : ((q.den : ℚ)) ≠ 0 := by exact_mod_cast q.den_nz
  rw [ratSub, Rat.divInt_eq_div]
  conv_rhs => rw [← Rat.num_div_den p, ← Rat.num_div_den q]
  rw [div_sub_div _ _ hp hq]
  push_cast
  ring_nf

/-- `ratMul` is rational multiplication. -/
theorem ratMul_eq (p q : ℚ) : ratMul p q = p * q := by
  rw [ratMul, Rat.divInt_eq_div]
  conv_rhs => rw [← Rat.num_div_den p, ← Rat.num_div_den q]
  rw [div_mul_div_comm]
  push_cast
  ring_nf

/-- `ratDiv` is rational division (both sides are 0 on a zero divisor). -/
theorem ratDiv_eq (p q : ℚ) : ratDiv p q = p / q := by
  rcases eq_or_ne q 0 with h | h
  · subst h
    simp [ratDiv, Rat.divInt_zero]
  · have hp : ((p.den : ℚ)) ≠ 0 := by exact_mod_cast p.den_nz
    rw [ratDiv, Rat.divInt_eq_div]
    conv_rhs => rw [← Rat.num_div_den p, ← Rat.num_div_den q]
    rw [div_div_div_comm]
    push_cast
    ring_nf
    rw [inv_inv]
    ring

/-- After `d[k] = v`, looking `k` up finds exactly `(k, v)`. -/
theorem dictInsert_find_self {α : Type} (d : List (String × α)) (k : String)
    (v : α) :
    List.find? (fun p => p.1 == k) (dictInsert d k v) = some (k, v) := by
  induction d with
  | nil => simp [dictInsert]
  | cons p t ih =>
      cases h : p.1 == k with
      | true => simp [dictInsert, h, List.find?]
      | false => simp [dictInsert, h, List.find?, ih]

/-- Entries of `dictInsert d k v` come from `d` or are the new `(k, v)`. -/
theorem mem_dictInsert {α : Type} (d : List (String × α)) (k : String)
    (v : α) (q : String × α) (hq : q ∈ dictInsert d k v) :
    q ∈ d ∨ q = (k, v) := by
  induction d with
  | nil =>
      right
      simpa [dictInsert] using hq
  | cons p t ih =>
      rw [dictInsert] at hq
      cases h : p.1 == k with
      | true =>
          rw [if_pos h] at hq
          rw [List.mem_cons] at hq
          rcases hq with hq | hq
          · right; exact hq
          · left
            rw [List.mem_cons]
            right; exact hq
      | false =>
          rw [if_neg (by simp [h])] at hq
          rw [List.mem_cons] at hq
          rcases hq with hq | hq
          · left
            rw [List.mem_cons]
            left; exact hq
          · rcases ih hq with hm | hk
            · left
              rw [List.mem_cons]
              right; exact hm
            · right; exact hk

/-- `d[k] = v` preserves pairwise-distinct keys (the Python dict
invariant). -/
theorem dictInsert_pairwise {α : Type} (d : List (String × α)) (k : String)
    (v : α) (hd : d.Pairwise (fun p q => p.1 ≠ q.1)) :
    (dictInsert d k v).Pairwise (fun p q => p.1 ≠ q.1) := by
  induction d with
  | nil => simp [dictInsert]
  | cons p t ih =>
      rw [List.pairwise_cons] at hd
      rw [dictInsert]
      cases h : p.1 == k with
      | true =>
          rw [if_pos rfl]
          rw [List.pairwise_cons]
          refine ⟨?_, hd.2⟩
          intro q hq
          have hpk : p.1 = k := by simpa using h
          have := hd.1 q hq
          rw [hpk] at this
          exact this
      | false =>
          rw [if_neg (by simp)]
          rw [List.pairwise_cons]
          refine ⟨?_, ih hd.2⟩
          intro q hq
          rcases mem_dictInsert t k v q hq with hm | hk
          · exact hd.1 q hm
          · rw [hk]
            simpa using h

/-- With pairwise-distinct keys, `d[k] = v` leaves exactly one entry under
`k`. -/
theorem dictInsert_countP {α : Type} (d : List (String × α)) (k : String)
    (v : α) (hd : d.Pairwise (fun p q => p.1 ≠ q.1)) :
    List.countP (fun p => p.1 == k) (dictInsert d k v) = 1 := by
  induction d with
  | nil => simp [dictInsert]
  | cons p t ih =>
      rw [List.pairwise_cons] at hd
      rw [dictInsert]
      cases h : p.1 == k with
      | true =>
          rw [if_pos rfl]
          rw [List.countP_cons]
          have hpk : p.1 = k := by simpa using h
          have hzero : List.countP (fun p => p.1 == k) t = 0 := by
            apply List.countP_eq_zero.mpr
            intro q hq
            have hne := hd.1 q hq
            rw [hpk] at hne
            simpa using fun hqe => hne hqe.symm
          simp [hzero]
      | false =>
          rw [if_neg (by simp)]
          rw [List.countP_cons]
          simp [h, ih hd.2]

/-- C1: for all numeric arguments `a`, `b`, the tools `calculate_sum`,
`calculate_subtract` and `calculate_multiply` return a single text content
block whose text is the string form of `a+b`, `a-b`, `a*b` respectively,
and `calculate_divide` on `a=10, b=2` returns the text `"5.0"`
(`str(a/b)`, the implementation's canonical numeric-to-text form). -/
theorem calculator_tools_text_results (a b : Value)
    (ha : a.isNumber = true) (hb : b.isNumber = true) :
    CalculatorTool.execute "sum" [("a", a), ("b", b)] =
      .ok [.text (pyStr (pyAdd a b))] ∧
    CalculatorTool.execute "subtract" [("a", a), ("b", b)] =
      .ok [.text (pyStr (pySub a b))] ∧
    CalculatorTool.execute "multiply" [("a", a), ("b", b)] =
      .ok [.text (pyStr (pyMul a b))] ∧
    CalculatorTool.execute "divide"
        [("a", Value.int 10), ("b", Value.int 2)] = .ok [.text "5.0"] := by
  have hga : PyDict.get [("a", a), ("b", b)] "a" = a := rfl
  have hgb : PyDict.get [("a", a), ("b", b)] "b" = b := rfl
  refine ⟨?_, ?_, ?_, by decide⟩ <;>
    simp [CalculatorTool.execute, hga, hgb, ha, hb, calcOp]

/-- C1 witness: the sum branch evaluated at `a = 1`, `b = 2`. -/
theorem calculator_tools_text_results_witness :
    CalculatorTool.execute "sum" [("a", Value.int 1), ("b", Value.int 2)] =
      .ok [.text (pyStr (pyAdd (Value.int 1) (Value.int 2)))] :=
  (calculator_tools_text_results (Value.int 1) (Value.int 2)
    (by decide) (by decide)).1

/-- C2: for every numeric `a`, `calculate_divide` with divisor `0` returns
normally with the single text block `"Error: Division by zero"` instead of
raising. -/
theorem divide_by_zero_returns_text (a : Value) (ha : a.isNumber = true) :
    CalculatorTool.execute "divide" [("a", a), ("b", Value.int 0)] =
      .ok [.text "Error: Division by zero"] := by
  have hga : PyDict.get [("a", a), ("b", Value.int 0)] "a" = a := rfl
  have hgb : PyDict.get [("a", a), ("b", Value.int 0)] "b" = Value.int 0 :=
    rfl
  simp [CalculatorTool.execute, hga, hgb, ha, calcOp, Value.isZero]
  rfl

/-- C2 witness: evaluated at `a = 10`. -/
theorem divide_by_zero_returns_text_witness :
    CalculatorTool.execute "divide"
        [("a", Value.int 10), ("b", Value.int 0)] =
      .ok [.text "Error: Division by zero"] :=
  divide_by_zero_returns_text (Value.int 10) (by decide)

/-- C3: for every unregistered tool name and any arguments,
`handle_call_tool` returns normally with a single text block whose text
starts with `"Error: "` (here `"Error: Unknown tool: <name>"`) instead of
propagating the failure. -/
theorem handle_call_tool_unknown_is_error_text (name : String)
    (arguments : Option PyDict) (h : tool_registry.get name = Option.none) :
    handle_call_tool name arguments =
      .ok [.text ("Error: " ++ ("Unknown tool: " ++ name))] := by
  simp [handle_call_tool, MCPToolRegistry.execute_tool, h, PyExc.isCaught,
    PyExc.message]

/-- C3 witness: evaluated at the unknown name `"does_not_exist"`. -/
theorem handle_call_tool_unknown_is_error_text_witness :
    handle_call_tool "does_not_exist" Option.none =
      .ok [.text ("Error: " ++ ("Unknown tool: " ++ "does_not_exist"))] :=
  handle_call_tool_unknown_is_error_text "does_not_exist" Option.none
    (by decide)

/-- C4: for every name not present in the registry, `execute_tool` fails
with exactly `ValueError(f"Unknown tool: {name}")` and with no other
exception type. -/
theorem execute_tool_unknown_raises_value_error (r : MCPToolRegistry)
    (name : String) (arguments : Option PyDict)
    (h : r.get name = Option.none) :
    r.execute_tool name arguments =
      .error (.valueError ("Unknown tool: " ++ name)) := by
  simp [MCPToolRegistry.execute_tool, h]

/-- C4 witness: evaluated on the program's registry at `"nonexistent"`. -/
theorem execute_tool_unknown_raises_value_error_witness :
    tool_registry.execute_tool "nonexistent" (some []) =
      .error (.valueError ("Unknown tool: " ++ "nonexistent")) :=
  execute_tool_unknown_raises_value_error tool_registry "nonexistent"
    (some []) (by decide)

/-- C5: registering `d1` then `d2` under the same name leaves exactly one
entry under that name and `get` returns `d2` (last registration wins);
`register` is total, so it never fails on an existing name. -/
theorem register_same_name_last_wins (r : MCPToolRegistry) (d1 d2 : MCPTool)
    (hname : d1.name = d2.name)
    (hkeys : r.tools.Pairwise (fun p q => p.1 ≠ q.1)) :
    ((r.register d1).register d2).get d1.name = some d2 ∧
    List.countP (fun p => p.1 == d1.name)
      ((r.register d1).register d2).tools = 1 := by
  rw [hname]
  constructor
  · simp [MCPToolRegistry.get, MCPToolRegistry.register, dictInsert_find_self]
  · exact dictInsert_countP _ _ _ (dictInsert_pairwise _ _ _ hkeys)

/-- C5 witness: a simple tool and a calculator tool that share the name
`"calculate_sum"`, registered into the empty registry. -/
theorem register_same_name_last_wins_witness :
    (((⟨[]⟩ : MCPToolRegistry).register
          (MCPTool.simple "calculate_sum" "duplicate" HandlerKind.serverInfo)).register
        (MCPTool.calculator "sum")).get
      (MCPTool.simple "calculate_sum" "duplicate" HandlerKind.serverInfo).name =
        some (MCPTool.calculator "sum") ∧
    List.countP
      (fun p =>
        p.1 == (MCPTool.simple "calculate_sum" "duplicate"
          HandlerKind.serverInfo).name)
      (((⟨[]⟩ : MCPToolRegistry).register
          (MCPTool.simple "calculate_sum" "duplicate" HandlerKind.serverInfo)).register
        (MCPTool.calculator "sum")).tools = 1 :=
  register_same_name_last_wins ⟨[]⟩
    (MCPTool.simple "calculate_sum" "duplicate" HandlerKind.serverInfo)
    (MCPTool.calculator "sum") (by decide) List.Pairwise.nil

/-- C6: for every calculator tool, if argument `a` or `b` is missing or
not a number, `execute` fails with `ValueError("Arguments must be
numbers")` before any arithmetic, never with an unrelated fault. -/
theorem calc_rejects_non_numbers (operation : String)
    (hop : operation = "sum" ∨ operation = "subtract" ∨
      operation = "multiply" ∨ operation = "divide")
    (arguments : PyDict)
    (h : (arguments.get "a").isNumber = false ∨
      (arguments.get "b").isNumber = false) :
    CalculatorTool.execute operation arguments =
      .error (.valueError "Arguments must be numbers") := by
  rcases h with h | h <;> simp [CalculatorTool.execute, h]

/-- C6 witness: `calculate_sum` with both arguments missing. -/
theorem calc_rejects_non_numbers_witness :
    CalculatorTool.execute "sum" [] =
      .error (.valueError "Arguments must be numbers") :=
  calc_rejects_non_numbers "sum" (Or.inl rfl) [] (Or.inl (by decide))

/-- C7: `handle_read_resource` succeeds exactly on the URI
`"config://app"`; the returned text interpolates the configured app name,
version and environment (so it contains all three); every other URI fails
with `ValueError(f"Resource not found: {uri}")`. -/
theorem read_resource_config_only (s : Settings) (uri : String) :
    ((∃ text, handle_read_resource s uri = .ok text) ↔
      uri = "config://app") ∧
    handle_read_resource s "config://app" =
      .ok ("Application Configuration:\n- Name: " ++ s.app_name ++
        "\n- Version: " ++ s.version ++
        "\n- Environment: " ++ s.environment ++
        "\n- Debug: " ++ pyBoolStr s.debug ++
        "\n- Host: " ++ s.host ++
        "\n- Port: " ++ toString s.port ++ "\n") ∧
    (uri ≠ "config://app" →
      handle_read_resource s uri =
        .error (.valueError ("Resource not found: " ++ uri))) := by
  refine ⟨⟨?_, ?_⟩, rfl, ?_⟩
  · rintro ⟨t, ht⟩
    by_contra hne
    rw [handle_read_resource, if_neg hne] at ht
    exact Except.noConfusion ht
  · intro he
    subst he
    exact ⟨_, rfl⟩
  · intro hne
    rw [handle_read_resource, if_neg hne]

/-- C7 witness: the development-default settings with an unmatched URI. -/
theorem read_resource_config_only_witness :
    handle_read_resource defaultSettings "config://other" =
      .error (.valueError ("Resource not found: " ++ "config://other")) :=
  (read_resource_config_only defaultSettings "config://other").2.2
    (by decide)

/-- C8 counterexample: with the required `name` argument missing,
`handle_get_prompt "greeting"` does not fail with an InvalidArgument
error; it succeeds with the fallback greeting, both for an empty and for a
`None` argument mapping. -/
theorem get_prompt_missing_required_succeeds :
    handle_get_prompt "greeting" (some []) =
      .ok (GetPromptResult.mk "A friendly greeting"
        [PromptMessage.mk "user"
          (ContentBlock.text "Hello, User! How can I help you today?")]) ∧
    handle_get_prompt "greeting" Option.none =
      .ok (GetPromptResult.mk "A friendly greeting"
        [PromptMessage.mk "user"
          (ContentBlock.text "Hello, User! How can I help you today?")]) := by
  exact ⟨by decide, by decide⟩

/-- C8 (amended): the greeting prompt declares its `name` argument with
`required=True` in `handle_list_prompts`, but `handle_get_prompt` does not
enforce the flag: with `name` missing from the argument mapping it renders
the fallback subject `"User"` instead of failing. -/
theorem greeting_required_not_enforced
    (arguments : Option (List (String × String)))
    (h : List.find? (fun p => p.1 == "name") (arguments.getD []) =
      Option.none) :
    (handle_list_prompts.map fun p =>
      (p.name, p.arguments.map fun a => (a.name, a.required))) =
      [("greeting", [("name", true)])] ∧
    handle_get_prompt "greeting" arguments =
      .ok (greetingResult "User") := by
  refine ⟨rfl, ?_⟩
  simp [handle_get_prompt, h]

/-- C8 witness: evaluated at a `None` argument mapping. -/
theorem greeting_required_not_enforced_witness :
    (handle_list_prompts.map fun p =>
      (p.name, p.arguments.map fun a => (a.name, a.required))) =
      [("greeting", [("name", true)])] ∧
    handle_get_prompt "greeting" Option.none =
      .ok (greetingResult "User") :=
  greeting_required_not_enforced Option.none rfl

/-- C9: `get_prompt("greeting")` with a `None` or empty argument mapping
renders `"Hello, User! How can I help you today?"`, with `name = "World"`
renders `"Hello, World! How can I help you today?"`, and every other
prompt name fails with `ValueError(f"Unknown prompt: {name}")`. -/
theorem get_prompt_greeting_behaviour (name : String)
    (arguments : Option (List (String × String))) (h : name ≠ "greeting") :
    handle_get_prompt "greeting" Option.none =
      .ok (GetPromptResult.mk "A friendly greeting"
        [PromptMessage.mk "user"
          (ContentBlock.text "Hello, User! How can I help you today?")]) ∧
    handle_get_prompt "greeting" (some []) =
      .ok (GetPromptResult.mk "A friendly greeting"
        [PromptMessage.mk "user"
          (ContentBlock.text "Hello, User! How can I help you today?")]) ∧
    handle_get_prompt "greeting" (some [("name", "World")]) =
      .ok (GetPromptResult.mk "A friendly greeting"
        [PromptMessage.mk "user"
          (ContentBlock.text "Hello, World! How can I help you today?")]) ∧
    handle_get_prompt name arguments =
      .error (.valueError ("Unknown prompt: " ++ name)) := by
  refine ⟨by decide, by decide, by decide, ?_⟩
  simp [handle_get_prompt, h]

/-- C9 witness: evaluated at the unknown prompt name `"bogus"`. -/
theorem get_prompt_greeting_behaviour_witness :
    handle_get_prompt "bogus" Option.none =
      .error (.valueError ("Unknown prompt: " ++ "bogus")) :=
  (get_prompt_greeting_behaviour "bogus" Option.none (by decide)).2.2.2

/-- C10: for a registered tool name, `execute_tool` with a `None` argument
mapping behaves exactly like `execute_tool` with the empty mapping: the
`None` is normalized to `{}` before the tool handler runs. -/
theorem execute_tool_none_equals_empty (name : String)
    (h : (tool_registry.get name).isSome = true) :
    tool_registry.execute_tool name Option.none =
      tool_registry.execute_tool name (some []) := rfl

/-- C10 witness: evaluated at `"calculate_sum"`. -/
theorem execute_tool_none_equals_empty_witness :
    (tool_registry.get "calculate_sum").isSome = true ∧
    tool_registry.execute_tool "calculate_sum" Option.none =
      tool_registry.execute_tool "calculate_sum" (some []) :=
  ⟨by decide, execute_tool_none_equals_empty "calculate_sum" (by decide)⟩
